import Mathlib

/-!
Shallow embedding of go-ipipnet-downloader (package downloader).

The repository file downloader.go contains two concatenated revisions of the
package. The first revision (the current one, the one the unit tests in
downloader_test.go exercise) keeps an interval guard in StartWatch, checks the
remote with an HTTP HEAD request in checkRemoteModification, and in download
reads the whole response body into memory and writes the destination file
directly with ioutil.WriteFile. The second revision has no interval guard,
fetches with a single GET, and replaces the destination through
saveStreamToFile, which streams the body to localPath + ".tmp" and renames the
temporary file over the destination. Namespace V1 embeds the first revision,
namespace V2 the second. Filesystem and network effects are modelled
explicitly: the filesystem is an association list from paths to contents, and
every operation returns the list of externally visible events it performed.
-/

/-- Filesystem contents: association list from path to file contents.
A path absent from the list does not exist (stat and read fail on it). -/
abbrev FS := List (String × String)

/-- Look a path up in the filesystem, first binding wins. -/
def fsLookup : FS → String → Option String
  | [], _ => none
  | (q, c) :: rest, p => if q = p then some c else fsLookup rest p

/-- Delete every binding of a path. -/
def fsRemove (fs : FS) (p : String) : FS :=
  List.filter (fun e => e.1 != p) fs

/-- Write a file: the new binding shadows (and erases) any previous one. -/
def fsSet (fs : FS) (p c : String) : FS :=
  (p, c) :: fsRemove fs p

/-- Externally visible events of one operation, in order. headReq and getReq
are the network requests; the rest are local filesystem operations. -/
inductive Ev where
  | headReq
  | getReq
  | statFile (p : String)
  | readFile (p : String)
  | writeFile (p : String) (c : String)
  | openFile (p : String)
  | removeFile (p : String)
  | renameFile (src dst : String)
deriving DecidableEq

/-- The Downloader struct. Callbacks are not fields here: notifications are
modelled as values emitted by the watch loops. Interval is in nanoseconds,
like time.Duration. -/
structure Downloader where
  localPath : String
  remoteURL : String
  interval : Int
  checkETag : Bool
  etag : String
  watching : Bool
deriving DecidableEq

/-- One GET response: the ETag header value ("" when the header is absent),
the body bytes the server delivers, and whether reading or copying the body
runs to completion (bodyOk = false is a mid-transfer error). -/
structure GetResp where
  etag : String
  body : String
  bodyOk : Bool
deriving DecidableEq

/-- The remote server as seen by one operation. headETag none is a HEAD
transport error; some s is a HEAD response whose ETag header reads s (""
when the header is absent). getResp none is a GET transport error. -/
structure Remote where
  headETag : Option String
  getResp : Option GetResp
deriving DecidableEq

/-- The environment of one operation: filesystem, remote server, and the set
of paths on which opening or writing a file fails with an IO error. -/
structure World where
  fs : FS
  remote : Remote
  writeFail : List String
deriving DecidableEq

/-- Errors of checkRemoteModification: a HEAD transport error, or errNoETag
when the response carries no ETag header. -/
inductive CheckErr where
  | transport
  | noETag
deriving DecidableEq

/-- Errors returned by download (both revisions). notModified is the
errNotModified sentinel that the remote watch loop recognizes; checkModFail
wraps a checkRemoteModification error; the others are the wrapped transport
and IO failures of the fetch itself. -/
inductive DlErr where
  | remoteURLUnset
  | checkModFail (e : CheckErr)
  | notModified
  | getFail
  | readBodyFail
  | saveLocalFail
  | saveETagFail
  | noETagInGet
deriving DecidableEq

/-- Result of one download call: the error (none means success), the updated
Downloader, the updated filesystem, and the event trace. -/
structure Outcome where
  res : Option DlErr
  dl : Downloader
  fs : FS
  trace : List Ev
deriving DecidableEq

namespace V1

/-- Embeds checkRemoteModification of the current revision: HEAD the remote
URL; a transport error is returned (with modified = true); an empty ETag
header yields errNoETag (with modified = true); otherwise modified is
whether the in-memory etag differs from the header. -/
def checkRemoteModification (d : Downloader) (r : Remote) :
    (Bool × Option CheckErr) × List Ev :=
  match r.headETag with
  | none => ((true, some CheckErr.transport), [Ev.headReq])
  | some t =>
    if t = "" then ((true, some CheckErr.noETag), [Ev.headReq])
    else ((decide (d.etag ≠ t), none), [Ev.headReq])

/-- The full-fetch tail of download in the current revision, after the
CheckETag gate: GET the URL, read the whole body into memory, write it
directly to localPath with ioutil.WriteFile, write the response ETag header
to localPath + ".etag", then update the in-memory etag. pre is the trace of
the preceding modification check. -/
def fullFetch (d : Downloader) (w : World) (pre : List Ev) : Outcome :=
  match w.remote.getResp with
  | none => ⟨some DlErr.getFail, d, w.fs, pre ++ [Ev.getReq]⟩
  | some g =>
    if !g.bodyOk then
      ⟨some DlErr.readBodyFail, d, w.fs, pre ++ [Ev.getReq]⟩
    else if w.writeFail.contains d.localPath then
      ⟨some DlErr.saveLocalFail, d, w.fs,
        pre ++ [Ev.getReq, Ev.writeFile d.localPath g.body]⟩
    else
      let fs1 := fsSet w.fs d.localPath g.body
      if w.writeFail.contains (d.localPath ++ ".etag") then
        ⟨some DlErr.saveETagFail, d, fs1,
          pre ++ [Ev.getReq, Ev.writeFile d.localPath g.body,
            Ev.writeFile (d.localPath ++ ".etag") g.etag]⟩
      else
        ⟨none, { d with etag := g.etag },
          fsSet fs1 (d.localPath ++ ".etag") g.etag,
          pre ++ [Ev.getReq, Ev.writeFile d.localPath g.body,
            Ev.writeFile (d.localPath ++ ".etag") g.etag]⟩

/-- Embeds download of the current revision: refuse when remoteURL is empty;
when CheckETag is set run checkRemoteModification first, propagating its
error or returning errNotModified when the token is unchanged; otherwise
perform the full fetch. -/
def download (d : Downloader) (w : World) : Outcome :=
  if d.remoteURL = "" then ⟨some DlErr.remoteURLUnset, d, w.fs, []⟩
  else if d.checkETag then
    match checkRemoteModification d w.remote with
    | ((_, some e), tr) => ⟨some (DlErr.checkModFail e), d, w.fs, tr⟩
    | ((modified, none), tr) =>
      if !modified then ⟨some DlErr.notModified, d, w.fs, tr⟩
      else fullFetch d w tr
  else fullFetch d w []

/-- Errors of EnsureLocal: loadETagFail is the wrapped "load etag fail"
error (the StateError of the spec); downloadFail wraps a download error. -/
inductive EnsureErr where
  | loadETagFail
  | downloadFail (e : DlErr)
deriving DecidableEq

/-- Result of one EnsureLocal call, shaped like Outcome. -/
structure EnsureOutcome where
  res : Option EnsureErr
  dl : Downloader
  fs : FS
  trace : List Ev
deriving DecidableEq

/-- Embeds EnsureLocal (identical text in both revisions): if stat on
localPath succeeds, load the sibling etag file into memory when CheckETag is
set, failing when it is missing or unreadable; otherwise run download,
wrapping its errors. -/
def EnsureLocal (d : Downloader) (w : World) : EnsureOutcome :=
  match fsLookup w.fs d.localPath with
  | some _ =>
    if d.checkETag then
      match fsLookup w.fs (d.localPath ++ ".etag") with
      | none =>
        ⟨some EnsureErr.loadETagFail, d, w.fs,
          [Ev.statFile d.localPath, Ev.readFile (d.localPath ++ ".etag")]⟩
      | some t =>
        ⟨none, { d with etag := t }, w.fs,
          [Ev.statFile d.localPath, Ev.readFile (d.localPath ++ ".etag")]⟩
    else ⟨none, d, w.fs, [Ev.statFile d.localPath]⟩
  | none =>
    let o := download d w
    ⟨(o.res).map EnsureErr.downloadFail, o.dl, o.fs,
      Ev.statFile d.localPath :: o.trace⟩

/-- The polling task StartWatch may launch: the local-mtime strategy when
remoteURL is empty, the remote strategy otherwise. -/
inductive Task where
  | localTask
  | remoteTask
deriving DecidableEq

/-- Embeds StartWatch of the current revision: a non-positive interval
returns at once (no state change, no task); otherwise watching is set and
one polling task is launched, chosen by whether remoteURL is empty. -/
def StartWatch (d : Downloader) : Downloader × Option Task :=
  if d.interval ≤ 0 then (d, none)
  else
    ({ d with watching := true },
      some (if d.remoteURL = "" then Task.localTask else Task.remoteTask))

/-- Embeds StopWatch: clear the watching flag. -/
def StopWatch (d : Downloader) : Downloader :=
  { d with watching := false }

/-- One stat observation in the local watch loop: the error cause when stat
fails, or the file's modification time (nanoseconds) when it succeeds. -/
abbrev StatResult := Except String Int

/-- Notifications a watch loop delivers through the callbacks: fail goes to
ErrorCallback with the cause, update goes to UpdateCallback with the path. -/
inductive LNotif where
  | fail (cause : String)
  | update (path : String)
deriving DecidableEq

/-- One iteration body of watchLocal: a failed stat raises the error
notification carrying the underlying cause; a modification time strictly
after the baseline ts raises the update notification with localPath;
otherwise nothing. -/
def watchLocalStep (d : Downloader) (ts : Int) (s : StatResult) : Option LNotif :=
  match s with
  | Except.error e => some (LNotif.fail e)
  | Except.ok m => if ts < m then some (LNotif.update d.localPath) else none

/-- The watchLocal loop over the stat observations of the iterations run
while watching held, with the baseline ts fixed at loop entry (the code
never reassigns ts). -/
def watchLocalLoop (d : Downloader) (ts : Int) (stats : List StatResult) :
    List LNotif :=
  match stats with
  | [] => []
  | s :: rest =>
    match watchLocalStep d ts s with
    | some n => n :: watchLocalLoop d ts rest
    | none => watchLocalLoop d ts rest

/-- How a watchLocal run ends: panicked models the nil dereference at loop
entry (os.Stat's error return is discarded, and info.ModTime() is called on
the nil result), ran gives the notifications delivered. -/
inductive LocalWatchRun where
  | panicked
  | ran (notifs : List LNotif)
deriving DecidableEq

/-- Embeds watchLocal: the baseline stat's error is ignored; when it failed
the subsequent info.ModTime() dereferences nil and the goroutine panics
before any callback can run; otherwise the loop runs against the baseline. -/
def watchLocal (d : Downloader) (baseline : StatResult)
    (stats : List StatResult) : LocalWatchRun :=
  match baseline with
  | Except.error _ => LocalWatchRun.panicked
  | Except.ok ts => LocalWatchRun.ran (watchLocalLoop d ts stats)

/-- Notifications of the remote watch loop: fail carries the download error
handed to ErrorCallback, update carries localPath handed to UpdateCallback. -/
inductive RNotif where
  | fail (e : DlErr)
  | update (path : String)
deriving DecidableEq

/-- How one watchRemote cycle is reported: errNotModified is silent, any
other error goes to onError, success goes to onUpdate with localPath. -/
def cycleNotif (o : Outcome) : Option RNotif :=
  match o.res with
  | some DlErr.notModified => none
  | some e => some (RNotif.fail e)
  | none => some (RNotif.update o.dl.localPath)

/-- Embeds the watchRemote loop. Each list element is one arrival at the top
of the loop: the value of d.watching read there, and the remote and
write-failure environment the cycle would run against. The loop exits when
it observes watching = false; the Bool of the result records whether it
exited that way (false means the supplied schedule ran out with the loop
still going). State (the downloader's etag and the filesystem) is threaded
through the cycles exactly as the Go loop does via d.download(). -/
def watchRemote (d : Downloader) (fs : FS)
    (inputs : List (Bool × Remote × List String)) : List RNotif × Bool :=
  match inputs with
  | [] => ([], false)
  | (watchingNow, rem, wf) :: rest =>
    if watchingNow then
      let o := download d { fs := fs, remote := rem, writeFail := wf }
      let tail := watchRemote o.dl o.fs rest
      (((cycleNotif o).toList) ++ tail.1, tail.2)
    else ([], true)

end V1

namespace V2

/-- Errors internal to saveStreamToFile, before download wraps them. -/
inductive SaveErr where
  | openTempFail
  | copyFail
deriving DecidableEq

/-- Result of saveStreamToFile before wrapping: error, filesystem, trace. -/
structure SaveOutcome where
  res : Option SaveErr
  fs : FS
  trace : List Ev
deriving DecidableEq

/-- Embeds saveStreamToFile of the second revision. The body stream is the
bytes delivered plus a completion flag (bodyOk = false is an io.Copy
error). The temporary file is opened O_WRONLY|O_CREATE without O_TRUNC, so
the copy overwrites from offset 0 and any longer stale content keeps its
tail. On a copy error the temporary file is removed and the error returned;
the destination is touched only by the final os.Rename (whose own error the
code ignores; the model's rename always succeeds). -/
def saveStreamToFile (body : String) (bodyOk : Bool) (path : String)
    (fs : FS) (failPaths : List String) : SaveOutcome :=
  let tempPath := path ++ ".tmp"
  if failPaths.contains tempPath then
    ⟨some SaveErr.openTempFail, fs, [Ev.openFile tempPath]⟩
  else
    let oldTmp := (fsLookup fs tempPath).getD ""
    let tmpContent := body ++ oldTmp.drop body.length
    let fs1 := fsSet fs tempPath tmpContent
    if !bodyOk then
      ⟨some SaveErr.copyFail, fsRemove fs1 tempPath,
        [Ev.openFile tempPath, Ev.writeFile tempPath tmpContent,
          Ev.removeFile tempPath]⟩
    else
      ⟨none, fsSet (fsRemove fs1 tempPath) path tmpContent,
        [Ev.openFile tempPath, Ev.writeFile tempPath tmpContent,
          Ev.renameFile tempPath path]⟩

/-- Embeds download of the second revision: GET first; with CheckETag unset
the body is streamed straight to the destination through saveStreamToFile;
with CheckETag set an absent ETag header is an error, an unchanged one is
errNotModified (after the GET), and otherwise the body is saved and the
header written to the sibling etag file. This revision never updates the
in-memory etag field. -/
def download (d : Downloader) (w : World) : Outcome :=
  if d.remoteURL = "" then ⟨some DlErr.remoteURLUnset, d, w.fs, []⟩
  else
    match w.remote.getResp with
    | none => ⟨some DlErr.getFail, d, w.fs, [Ev.getReq]⟩
    | some g =>
      if !d.checkETag then
        let s := saveStreamToFile g.body g.bodyOk d.localPath w.fs w.writeFail
        match s.res with
        | some _ => ⟨some DlErr.saveLocalFail, d, s.fs, Ev.getReq :: s.trace⟩
        | none => ⟨none, d, s.fs, Ev.getReq :: s.trace⟩
      else if g.etag = "" then ⟨some DlErr.noETagInGet, d, w.fs, [Ev.getReq]⟩
      else if g.etag = d.etag then ⟨some DlErr.notModified, d, w.fs, [Ev.getReq]⟩
      else
        let s := saveStreamToFile g.body g.bodyOk d.localPath w.fs w.writeFail
        match s.res with
        | some _ => ⟨some DlErr.saveLocalFail, d, s.fs, Ev.getReq :: s.trace⟩
        | none =>
          if w.writeFail.contains (d.localPath ++ ".etag") then
            ⟨some DlErr.saveETagFail, d, s.fs,
              Ev.getReq :: s.trace ++
                [Ev.writeFile (d.localPath ++ ".etag") g.etag]⟩
          else
            ⟨none, d, fsSet s.fs (d.localPath ++ ".etag") g.etag,
              Ev.getReq :: s.trace ++
                [Ev.writeFile (d.localPath ++ ".etag") g.etag]⟩

end V2

/-- True on the events a metadata check or token-file consultation would
produce: the HEAD request and any file read. -/
def isMetaEvent : Ev → Bool
  | Ev.headReq => true
  | Ev.readFile _ => true
  | _ => false

/-- A trace with no metadata request and no file read at all. -/
def noMetaEvents (tr : List Ev) : Bool :=
  tr.all (fun e => !(isMetaEvent e))

/-- Concrete instance for the C1 counterexample: token checking on, stale
in-memory token, healthy server, a successful full fetch. -/
def c1dl : Downloader := ⟨"geo.dat", "http://u", 60, true, "", false⟩

/-- World for the C1 counterexample: destination exists with old content. -/
def c1w : World :=
  ⟨[("geo.dat", "old")], ⟨some "NEW", some ⟨"NEW", "payload", true⟩⟩, []⟩

/-- Concrete GET response for the C1 amended witness. -/
def c1g : GetResp := ⟨"ET1", "blob", true⟩

/-- Concrete downloader for the C1 amended witness. -/
def c1adl : Downloader := ⟨"a.dat", "http://z", 60, false, "", false⟩

/-- Concrete world for the C1 amended witness. -/
def c1aw : World := ⟨[("a.dat", "prev")], ⟨none, some c1g⟩, []⟩

/-- Concrete downloader for C2: in-memory token equal to the served one. -/
def c2dl : Downloader := ⟨"ip.dat", "http://h", 60, true, "T9", false⟩

/-- Concrete world for C2: HEAD serves the same token T9. -/
def c2w : World :=
  ⟨[("ip.dat", "old"), ("ip.dat.etag", "T9")],
    ⟨some "T9", some ⟨"T9", "zzz", true⟩⟩, []⟩

/-- Concrete downloader for C3: token checking disabled. -/
def c3dl : Downloader := ⟨"data", "http://x", 3600, false, "", false⟩

/-- Concrete GET response for C3. -/
def c3g : GetResp := ⟨"E1", "body", true⟩

/-- Concrete world for C3: empty filesystem, healthy server. -/
def c3w : World := ⟨[], ⟨none, some c3g⟩, []⟩

/-- Concrete downloader for C4: token checking enabled. -/
def c4dl : Downloader := ⟨"d4.dat", "", 0, true, "", false⟩

/-- Concrete world for C4: data file and token file both present. -/
def c4w : World :=
  ⟨[("d4.dat", "abc"), ("d4.dat.etag", "tok")], ⟨none, none⟩, []⟩

/-- Concrete downloader for C5: interval zero, stopped. -/
def c5dl : Downloader := ⟨"x.dat", "", 0, false, "", false⟩

/-- Concrete downloader for C7. -/
def c7dl : Downloader := ⟨"p.dat", "http://h", 60, true, "OLD", false⟩

/-- Concrete GET response for C7. -/
def c7g : GetResp := ⟨"NEW2", "pay", true⟩

/-- Concrete world for C7: writing the sibling etag file fails. -/
def c7w : World :=
  ⟨[("p.dat", "prev")], ⟨some "NEW2", some c7g⟩, ["p.dat.etag"]⟩

/-- Concrete downloader for C8. -/
def c8dl : Downloader := ⟨"r.dat", "http://h", 60, true, "E", false⟩

/-- Concrete remote for C8: the HEAD request fails at transport level, so
every cycle errors. -/
def c8r : Remote := ⟨none, none⟩

/-- Concrete watch schedule for C8: two cycle tops, both with watching
still true. -/
def c8inputs : List (Bool × Remote × List String) :=
  [(true, c8r, []), (true, c8r, [])]

/-- Concrete downloader for C9. -/
def c9dl : Downloader := ⟨"ip9.dat", "http://h", 60, true, "X", false⟩

/-- Concrete world for C9: the HEAD response carries no ETag header. -/
def c9w : World := ⟨[], ⟨some "", none⟩, []⟩

theorem fsLookup_set_self (fs : FS) (p c : String) :
    fsLookup (fsSet fs p c) p = some c := by
  simp [fsSet, fsLookup]

theorem fsLookup_remove_self (fs : FS) (p : String) :
    fsLookup (fsRemove fs p) p = none := by
  induction fs with
  | nil => rfl
  | cons hd tl ih =>
    rcases hd with ⟨a, c⟩
    by_cases hap : a = p
    · simpa [fsRemove, hap, List.filter_cons, bne_iff_ne] using ih
    · simpa [fsRemove, List.filter_cons, bne_iff_ne, hap, fsLookup] using ih

theorem fsLookup_remove_ne (fs : FS) (p q : String) (h : q ≠ p) :
    fsLookup (fsRemove fs p) q = fsLookup fs q := by
  induction fs with
  | nil => rfl
  | cons hd tl ih =>
    rcases hd with ⟨a, c⟩
    by_cases hap : a = p
    · subst hap
      have haq : ¬ a = q := fun hh => h hh.symm
      simpa [fsRemove, List.filter_cons, bne_iff_ne, fsLookup, haq] using ih
    · by_cases haq : a = q
      · simp [fsRemove, List.filter_cons, bne_iff_ne, hap, fsLookup, haq, h]
      · simpa [fsRemove, List.filter_cons, bne_iff_ne, hap, fsLookup, haq] using ih

theorem fsLookup_set_ne (fs : FS) (p q c : String) (h : q ≠ p) :
    fsLookup (fsSet fs p c) q = fsLookup fs q := by
  have hpq : ¬ p = q := fun hh => h hh.symm
  simp [fsSet, fsLookup, hpq, fsLookup_remove_ne fs p q h]

/-- Appending a nonempty suffix changes a string, so localPath and its
sibling paths localPath + ".tmp" / ".etag" are always distinct. -/
theorem ne_append_of_length_pos (p s : String) (h : 0 < s.length) :
    p ≠ p ++ s := by
  intro he
  have hl : p.length = p.length + s.length := by
    conv_lhs => rw [he]
    exact String.length_append p s
  omega

theorem watchLocalLoop_eq_filterMap (d : Downloader) (ts : Int)
    (stats : List V1.StatResult) :
    V1.watchLocalLoop d ts stats = stats.filterMap (V1.watchLocalStep d ts) := by
  induction stats with
  | nil => rfl
  | cons s rest ih =>
    cases h : V1.watchLocalStep d ts s <;>
      simp [V1.watchLocalLoop, h, List.filterMap_cons, ih]

theorem watchRemote_all_watching (inputs : List (Bool × Remote × List String)) :
    ∀ d fs, (∀ x ∈ inputs, x.1 = true) → (V1.watchRemote d fs inputs).2 = false := by
  induction inputs with
  | nil => intro d fs _; rfl
  | cons hd tl ih =>
    intro d fs hall
    rcases hd with ⟨b, r, wf⟩
    have hb : b = true := hall (b, r, wf) (List.mem_cons_self _ _)
    subst hb
    simp only [V1.watchRemote, if_pos rfl]
    exact ih _ _ (fun x hx => hall x (by simp [hx]))

/-- C2: with token checking enabled, when the HEAD response carries a token
equal to the in-memory changeToken, download returns the errNotModified
outcome, issues no GET (so no body data is transferred), and its result
carries the unchanged downloader, the unchanged filesystem, and a trace
consisting of the HEAD request alone — neither the data file nor the token
file is written. -/
theorem download_unchanged_token_not_modified (d : Downloader) (w : World)
    (t : String) (hck : d.checkETag = true) (hurl : d.remoteURL ≠ "")
    (hhead : w.remote.headETag = some t) (ht : t ≠ "") (heq : d.etag = t) :
    V1.download d w = ⟨some DlErr.notModified, d, w.fs, [Ev.headReq]⟩ := by
  simp [V1.download, V1.checkRemoteModification, hurl, hck, hhead, ht, heq]

/-- Witness for C2 at a concrete instance. -/
theorem download_unchanged_token_not_modified_witness :
    V1.download c2dl c2w = ⟨some DlErr.notModified, c2dl, c2w.fs, [Ev.headReq]⟩ :=
  download_unchanged_token_not_modified c2dl c2w "T9" rfl (by decide) rfl
    (by decide) rfl

/-- C9: with token checking enabled, when the HEAD response carries no ETag
header, download fails with the wrapped errNoETag — an error outcome that is
distinct from the errNotModified outcome — leaving downloader and
filesystem unchanged; the error is returned to the caller. -/
theorem download_missing_token_is_distinct_error (d : Downloader) (w : World)
    (hck : d.checkETag = true) (hurl : d.remoteURL ≠ "")
    (hhead : w.remote.headETag = some "") :
    V1.download d w =
      ⟨some (DlErr.checkModFail CheckErr.noETag), d, w.fs, [Ev.headReq]⟩
    ∧ DlErr.checkModFail CheckErr.noETag ≠ DlErr.notModified := by
  constructor
  · simp [V1.download, V1.checkRemoteModification, hurl, hck, hhead]
  · decide

/-- Witness for C9 at a concrete instance. -/
theorem download_missing_token_is_distinct_error_witness :
    V1.download c9dl c9w =
      ⟨some (DlErr.checkModFail CheckErr.noETag), c9dl, c9w.fs, [Ev.headReq]⟩
    ∧ DlErr.checkModFail CheckErr.noETag ≠ DlErr.notModified :=
  download_missing_token_is_distinct_error c9dl c9w rfl (by decide) rfl

/-- C4: with token checking enabled and the local data file present,
EnsureLocal reads only the sibling token file: when that file is absent it
fails with the wrapped load error (the StateError), and when it is readable
it succeeds and copies its contents into the in-memory changeToken. In both
cases the filesystem is unchanged and the trace is exactly the stat of the
data file followed by the read of the token file — no network request and
no write. -/
theorem ensureLocal_existing_file_token_behavior (d : Downloader) (w : World)
    (c : String) (hck : d.checkETag = true)
    (hex : fsLookup w.fs d.localPath = some c) :
    V1.EnsureLocal d w =
      match fsLookup w.fs (d.localPath ++ ".etag") with
      | none =>
        ⟨some V1.EnsureErr.loadETagFail, d, w.fs,
          [Ev.statFile d.localPath, Ev.readFile (d.localPath ++ ".etag")]⟩
      | some t =>
        ⟨none, { d with etag := t }, w.fs,
          [Ev.statFile d.localPath, Ev.readFile (d.localPath ++ ".etag")]⟩ := by
  unfold V1.EnsureLocal
  rw [hex]
  simp [hck]

/-- Witness for C4 at a concrete instance. -/
theorem ensureLocal_existing_file_token_behavior_witness :
    V1.EnsureLocal c4dl c4w =
      match fsLookup c4w.fs (c4dl.localPath ++ ".etag") with
      | none =>
        ⟨some V1.EnsureErr.loadETagFail, c4dl, c4w.fs,
          [Ev.statFile c4dl.localPath, Ev.readFile (c4dl.localPath ++ ".etag")]⟩
      | some t =>
        ⟨none, { c4dl with etag := t }, c4w.fs,
          [Ev.statFile c4dl.localPath, Ev.readFile (c4dl.localPath ++ ".etag")]⟩ :=
  ensureLocal_existing_file_token_behavior c4dl c4w "abc" rfl (by decide)

/-- C5: StartWatch with a non-positive interval returns at once: the
downloader is returned unchanged (so a Stopped instance stays Stopped, the
watching flag untouched) and no polling task is launched — and since the
callbacks are only ever invoked from a launched polling task, neither
callback can ever fire. -/
theorem startWatch_nonpositive_interval_refused (d : Downloader)
    (h : d.interval ≤ 0) :
    V1.StartWatch d = (d, none) := by
  simp [V1.StartWatch, h]

/-- Witness for C5 at a concrete instance with interval zero. -/
theorem startWatch_nonpositive_interval_refused_witness :
    V1.StartWatch c5dl = (c5dl, none) :=
  startWatch_nonpositive_interval_refused c5dl (by decide)

/-- C6: every iteration of the local watch loop compares against the single
baseline ts captured at loop entry: the run equals the per-iteration step
mapped over the observations with the same fixed ts (never refreshed, even
after an update fires), the step on a failed stat raises the error
notification carrying the underlying cause, and the step on a successful
stat raises the update notification exactly when the modification time is
strictly after the baseline. -/
theorem watchLocal_fixed_baseline (d : Downloader) (ts m : Int) (e : String)
    (stats : List V1.StatResult) :
    V1.watchLocal d (Except.ok ts) stats =
      V1.LocalWatchRun.ran (stats.filterMap (V1.watchLocalStep d ts))
    ∧ V1.watchLocalStep d ts (Except.error e) = some (V1.LNotif.fail e)
    ∧ V1.watchLocalStep d ts (Except.ok m) =
        (if ts < m then some (V1.LNotif.update d.localPath) else none)
    ∧ V1.watchLocalLoop d ts (Except.ok (ts + 1) :: stats) =
        V1.LNotif.update d.localPath :: V1.watchLocalLoop d ts stats := by
  refine ⟨?_, rfl, rfl, ?_⟩
  · simp [V1.watchLocal, watchLocalLoop_eq_filterMap]
  · simp [V1.watchLocalLoop, V1.watchLocalStep]

/-- C10: when the stat taken at watchLocal entry fails, its error is
discarded and the nil FileInfo is dereferenced for the baseline timestamp,
so the run panics — it is distinct from every normal run and delivers no
notification, in particular no error callback. The error-notification path
exists only in runs whose baseline stat succeeded, where a post-baseline
stat failure does reach the callback. -/
theorem watchLocal_baseline_stat_panics (d : Downloader) (e : String)
    (ts : Int) (stats : List V1.StatResult) :
    V1.watchLocal d (Except.error e) stats = V1.LocalWatchRun.panicked
    ∧ (V1.LocalWatchRun.panicked ≠
        V1.LocalWatchRun.ran (V1.watchLocalLoop d ts stats))
    ∧ V1.watchLocal d (Except.ok ts) stats =
        V1.LocalWatchRun.ran (V1.watchLocalLoop d ts stats)
    ∧ V1.watchLocal d (Except.ok ts) (Except.error e :: stats) =
        V1.LocalWatchRun.ran
          (V1.LNotif.fail e :: V1.watchLocalLoop d ts stats) := by
  refine ⟨rfl, ?_, rfl, ?_⟩
  · intro h
    exact V1.LocalWatchRun.noConfusion h
  · simp [V1.watchLocal, V1.watchLocalLoop, V1.watchLocalStep]

/-- C7: on a full fetch with token checking enabled that replaces the data
file, the server's token is written to the sibling token file and only then
is the in-memory changeToken updated: the trace always ends with the token
file write, and when that write fails the error is propagated with the
downloader unchanged (the in-memory token was not yet updated) while the
filesystem already holds the replaced data file; when it succeeds the
in-memory token is updated as well. The final conjunct checks that the
data file indeed holds the fetched body in the already-replaced state. -/
theorem download_persists_token_then_updates_memory (d : Downloader)
    (w : World) (g : GetResp) (t : String) (hck : d.checkETag = true)
    (hurl : d.remoteURL ≠ "") (hhead : w.remote.headETag = some t)
    (ht : t ≠ "") (hne : d.etag ≠ t) (hget : w.remote.getResp = some g)
    (hbody : g.bodyOk = true) (hwf1 : d.localPath ∉ w.writeFail) :
    V1.download d w =
      (if w.writeFail.contains (d.localPath ++ ".etag") then
        ⟨some DlErr.saveETagFail, d, fsSet w.fs d.localPath g.body,
          [Ev.headReq, Ev.getReq, Ev.writeFile d.localPath g.body,
            Ev.writeFile (d.localPath ++ ".etag") g.etag]⟩
      else
        ⟨none, { d with etag := g.etag },
          fsSet (fsSet w.fs d.localPath g.body) (d.localPath ++ ".etag") g.etag,
          [Ev.headReq, Ev.getReq, Ev.writeFile d.localPath g.body,
            Ev.writeFile (d.localPath ++ ".etag") g.etag]⟩)
    ∧ fsLookup (fsSet w.fs d.localPath g.body) d.localPath = some g.body := by
  constructor
  · have h1 : V1.download d w = V1.fullFetch d w [Ev.headReq] := by
      simp [V1.download, V1.checkRemoteModification, hurl, hck, hhead, ht, hne]
    rw [h1]
    simp [V1.fullFetch, hget, hbody, hwf1]
  · exact fsLookup_set_self _ _ _

/-- Witness for C7 at a concrete instance whose token-file write fails. -/
theorem download_persists_token_then_updates_memory_witness :
    V1.download c7dl c7w =
      (if c7w.writeFail.contains (c7dl.localPath ++ ".etag") then
        ⟨some DlErr.saveETagFail, c7dl, fsSet c7w.fs c7dl.localPath c7g.body,
          [Ev.headReq, Ev.getReq, Ev.writeFile c7dl.localPath c7g.body,
            Ev.writeFile (c7dl.localPath ++ ".etag") c7g.etag]⟩
      else
        ⟨none, { c7dl with etag := c7g.etag },
          fsSet (fsSet c7w.fs c7dl.localPath c7g.body)
            (c7dl.localPath ++ ".etag") c7g.etag,
          [Ev.headReq, Ev.getReq, Ev.writeFile c7dl.localPath c7g.body,
            Ev.writeFile (c7dl.localPath ++ ".etag") c7g.etag]⟩)
    ∧ fsLookup (fsSet c7w.fs c7dl.localPath c7g.body) c7dl.localPath =
        some c7g.body :=
  download_persists_token_then_updates_memory c7dl c7w c7g "NEW2" rfl
    (by decide) rfl (by decide) (by decide) rfl rfl (by decide)

/-- C8: the remote watch loop exits exactly when it observes watching =
false at the top of a cycle — immediately, before running another cycle —
and a cycle whose download fails with any error other than errNotModified
reports it through the error callback and continues with the remaining
schedule; a schedule on which watching stays true never terminates the
loop. -/
theorem watchRemote_error_continues_and_stop_exits (d : Downloader)
    (fs : FS) (r : Remote) (wf : List String)
    (rest inputs : List (Bool × Remote × List String)) (e : DlErr)
    (hall : ∀ x ∈ inputs, x.1 = true)
    (herr : (V1.download d ⟨fs, r, wf⟩).res = some e)
    (hne : e ≠ DlErr.notModified) :
    V1.watchRemote d fs ((false, r, wf) :: rest) = ([], true)
    ∧ V1.watchRemote d fs ((true, r, wf) :: rest) =
        (V1.RNotif.fail e ::
            (V1.watchRemote (V1.download d ⟨fs, r, wf⟩).dl
              (V1.download d ⟨fs, r, wf⟩).fs rest).1,
          (V1.watchRemote (V1.download d ⟨fs, r, wf⟩).dl
            (V1.download d ⟨fs, r, wf⟩).fs rest).2)
    ∧ (V1.watchRemote d fs inputs).2 = false := by
  refine ⟨rfl, ?_, watchRemote_all_watching inputs d fs hall⟩
  have hcyc : V1.cycleNotif (V1.download d ⟨fs, r, wf⟩) =
      some (V1.RNotif.fail e) := by
    unfold V1.cycleNotif
    rw [herr]
    cases e <;> first | exact absurd rfl hne | rfl
  simp [V1.watchRemote, hcyc]

/-- Witness for C8 at a concrete instance whose cycles all fail with a
transport error. -/
theorem watchRemote_error_continues_and_stop_exits_witness :
    V1.watchRemote c8dl [] ((false, c8r, []) :: []) = ([], true)
    ∧ V1.watchRemote c8dl [] ((true, c8r, []) :: []) =
        (V1.RNotif.fail (DlErr.checkModFail CheckErr.transport) ::
            (V1.watchRemote (V1.download c8dl ⟨[], c8r, []⟩).dl
              (V1.download c8dl ⟨[], c8r, []⟩).fs []).1,
          (V1.watchRemote (V1.download c8dl ⟨[], c8r, []⟩).dl
            (V1.download c8dl ⟨[], c8r, []⟩).fs []).2)
    ∧ (V1.watchRemote c8dl [] c8inputs).2 = false :=
  watchRemote_error_continues_and_stop_exits c8dl [] c8r [] [] c8inputs
    (DlErr.checkModFail CheckErr.transport) (by decide) (by decide) (by decide)

/-- C3 counterexample: with token checking disabled, a successful run of the
current revision's download still writes the sibling token file localPath +
".etag" (with the GET response's ETag header value) and leaves it on disk,
refuting the claim that no sibling token file is written. -/
theorem download_without_check_writes_token_file_cex :
    c3dl.checkETag = false
    ∧ (V1.download c3dl c3w).res = none
    ∧ Ev.writeFile ("data" ++ ".etag") "E1" ∈ (V1.download c3dl c3w).trace
    ∧ fsLookup (V1.download c3dl c3w).fs ("data" ++ ".etag") = some "E1" := by
  decide

/-- C3 amended: with token checking disabled, every download run is an
unconditional full fetch — no metadata-only request and no file read occur
in its trace — but the sibling token file is still written on success: the
run succeeds, the token file holds the response's ETag header value, and
the in-memory token is updated to it. -/
theorem download_without_check_unconditional_fetch (d : Downloader)
    (w : World) (g : GetResp) (hck : d.checkETag = false)
    (hurl : d.remoteURL ≠ "") (hget : w.remote.getResp = some g)
    (hbody : g.bodyOk = true) (hwf1 : d.localPath ∉ w.writeFail)
    (hwf2 : d.localPath ++ ".etag" ∉ w.writeFail) :
    V1.download d w = V1.fullFetch d w []
    ∧ noMetaEvents (V1.download d w).trace = true
    ∧ (V1.download d w).res = none
    ∧ fsLookup (V1.download d w).fs (d.localPath ++ ".etag") = some g.etag
    ∧ (V1.download d w).dl.etag = g.etag := by
  have h1 : V1.download d w = V1.fullFetch d w [] := by
    simp [V1.download, hurl, hck]
  have h2 : V1.fullFetch d w [] =
      ⟨none, { d with etag := g.etag },
        fsSet (fsSet w.fs d.localPath g.body) (d.localPath ++ ".etag") g.etag,
        [Ev.getReq, Ev.writeFile d.localPath g.body,
          Ev.writeFile (d.localPath ++ ".etag") g.etag]⟩ := by
    simp [V1.fullFetch, hget, hbody, hwf1, hwf2]
  refine ⟨h1, ?_, ?_, ?_, ?_⟩ <;> rw [h1, h2]
  · simp [noMetaEvents, isMetaEvent]
  · exact fsLookup_set_self _ _ _

/-- Witness for the amended C3 at a concrete instance. -/
theorem download_without_check_unconditional_fetch_witness :
    V1.download c3dl c3w = V1.fullFetch c3dl c3w []
    ∧ noMetaEvents (V1.download c3dl c3w).trace = true
    ∧ (V1.download c3dl c3w).res = none
    ∧ fsLookup (V1.download c3dl c3w).fs (c3dl.localPath ++ ".etag") =
        some c3g.etag
    ∧ (V1.download c3dl c3w).dl.etag = c3g.etag :=
  download_without_check_unconditional_fetch c3dl c3w c3g rfl (by decide) rfl
    rfl (by decide) (by decide)

/-- C1 counterexample: a successful full fetch of the current revision's
download whose complete trace is a HEAD, a GET and two direct WriteFile
calls — the destination file is overwritten in place and no operation ever
touches localPath + ".tmp" and no rename occurs, refuting the claim that
every full fetch goes through a temporary file and an atomic rename. -/
theorem download_full_fetch_no_temp_file_cex :
    (V1.download c1dl c1w).res = none
    ∧ (V1.download c1dl c1w).trace =
        [Ev.headReq, Ev.getReq, Ev.writeFile "geo.dat" "payload",
          Ev.writeFile "geo.dat.etag" "NEW"]
    ∧ (Ev.writeFile ("geo.dat" ++ ".tmp") "payload" ∉
        (V1.download c1dl c1w).trace)
    ∧ (Ev.renameFile ("geo.dat" ++ ".tmp") "geo.dat" ∉
        (V1.download c1dl c1w).trace)
    ∧ Ev.writeFile "geo.dat" "payload" ∈ (V1.download c1dl c1w).trace := by
  decide

/-- C1 amended: in the current revision the full fetch uses no temporary
file: it reads the whole body into memory and on success writes it directly
over localPath (then writes the token file), while a body-read error is
propagated with the filesystem untouched, so an interrupted transfer leaves
the destination intact; the data file then holds the fetched body. The
temporary-file-and-rename mechanism belongs to the second revision's
saveStreamToFile, for which a copy error yields the copy failure, leaves
the destination unchanged and removes the temporary file, while a completed
copy installs the copied content at the destination and leaves no
temporary file behind. -/
theorem fullFetch_direct_write_and_stream_save_atomic (d : Downloader)
    (w : World) (g : GetResp) (pre : List Ev) (body path : String) (fs : FS)
    (fail : List String) (hget : w.remote.getResp = some g)
    (hwf1 : d.localPath ∉ w.writeFail)
    (hwf2 : d.localPath ++ ".etag" ∉ w.writeFail)
    (hfail : path ++ ".tmp" ∉ fail) :
    V1.fullFetch d w pre =
      (if g.bodyOk then
        ⟨none, { d with etag := g.etag },
          fsSet (fsSet w.fs d.localPath g.body) (d.localPath ++ ".etag") g.etag,
          pre ++ [Ev.getReq, Ev.writeFile d.localPath g.body,
            Ev.writeFile (d.localPath ++ ".etag") g.etag]⟩
      else ⟨some DlErr.readBodyFail, d, w.fs, pre ++ [Ev.getReq]⟩)
    ∧ fsLookup (fsSet (fsSet w.fs d.localPath g.body)
        (d.localPath ++ ".etag") g.etag) d.localPath = some g.body
    ∧ (V2.saveStreamToFile body false path fs fail).res =
        some V2.SaveErr.copyFail
    ∧ fsLookup (V2.saveStreamToFile body false path fs fail).fs path =
        fsLookup fs path
    ∧ fsLookup (V2.saveStreamToFile body false path fs fail).fs
        (path ++ ".tmp") = none
    ∧ fsLookup (V2.saveStreamToFile body true path fs fail).fs path =
        some (body ++ (((fsLookup fs (path ++ ".tmp")).getD "").drop
          body.length))
    ∧ fsLookup (V2.saveStreamToFile body true path fs fail).fs
        (path ++ ".tmp") = none := by
  have hptmp : path ≠ path ++ ".tmp" :=
    ne_append_of_length_pos path ".tmp" (by decide)
  have htmpp : path ++ ".tmp" ≠ path := fun hh => hptmp hh.symm
  have hlp : d.localPath ≠ d.localPath ++ ".etag" :=
    ne_append_of_length_pos d.localPath ".etag" (by decide)
  have hsf : V2.saveStreamToFile body false path fs fail =
      ⟨some V2.SaveErr.copyFail,
        fsRemove (fsSet fs (path ++ ".tmp")
          (body ++ (((fsLookup fs (path ++ ".tmp")).getD "").drop
            body.length))) (path ++ ".tmp"),
        [Ev.openFile (path ++ ".tmp"),
          Ev.writeFile (path ++ ".tmp")
            (body ++ (((fsLookup fs (path ++ ".tmp")).getD "").drop
              body.length)),
          Ev.removeFile (path ++ ".tmp")]⟩ := by
    simp [V2.saveStreamToFile, hfail]
  have hst : V2.saveStreamToFile body true path fs fail =
      ⟨none,
        fsSet (fsRemove (fsSet fs (path ++ ".tmp")
          (body ++ (((fsLookup fs (path ++ ".tmp")).getD "").drop
            body.length))) (path ++ ".tmp")) path
          (body ++ (((fsLookup fs (path ++ ".tmp")).getD "").drop
            body.length)),
        [Ev.openFile (path ++ ".tmp"),
          Ev.writeFile (path ++ ".tmp")
            (body ++ (((fsLookup fs (path ++ ".tmp")).getD "").drop
              body.length)),
          Ev.renameFile (path ++ ".tmp") path]⟩ := by
    simp [V2.saveStreamToFile, hfail]
  refine ⟨?_, ?_, ?_, ?_, ?_, ?_, ?_⟩
  · cases hb : g.bodyOk <;> simp [V1.fullFetch, hget, hb, hwf1, hwf2]
  · rw [fsLookup_set_ne _ _ _ _ hlp, fsLookup_set_self]
  · rw [hsf]
  · rw [hsf]
    exact (fsLookup_remove_ne _ _ _ hptmp).trans
      (fsLookup_set_ne _ _ _ _ hptmp)
  · rw [hsf]
    exact fsLookup_remove_self _ _
  · rw [hst]
    exact fsLookup_set_self _ _ _
  · rw [hst]
    rw [fsLookup_set_ne _ _ _ _ htmpp]
    exact fsLookup_remove_self _ _

/-- Witness for the amended C1 at concrete instances of both revisions. -/
theorem fullFetch_direct_write_and_stream_save_atomic_witness :
    V1.fullFetch c1adl c1aw [] =
      (if c1g.bodyOk then
        ⟨none, { c1adl with etag := c1g.etag },
          fsSet (fsSet c1aw.fs c1adl.localPath c1g.body)
            (c1adl.localPath ++ ".etag") c1g.etag,
          [] ++ [Ev.getReq, Ev.writeFile c1adl.localPath c1g.body,
            Ev.writeFile (c1adl.localPath ++ ".etag") c1g.etag]⟩
      else ⟨some DlErr.readBodyFail, c1adl, c1aw.fs, [] ++ [Ev.getReq]⟩)
    ∧ fsLookup (fsSet (fsSet c1aw.fs c1adl.localPath c1g.body)
        (c1adl.localPath ++ ".etag") c1g.etag) c1adl.localPath =
        some c1g.body
    ∧ (V2.saveStreamToFile "bb" false "t.dat" [("t.dat", "zz")] []).res =
        some V2.SaveErr.copyFail
    ∧ fsLookup (V2.saveStreamToFile "bb" false "t.dat" [("t.dat", "zz")] []).fs
        "t.dat" = fsLookup [("t.dat", "zz")] "t.dat"
    ∧ fsLookup (V2.saveStreamToFile "bb" false "t.dat" [("t.dat", "zz")] []).fs
        ("t.dat" ++ ".tmp") = none
    ∧ fsLookup (V2.saveStreamToFile "bb" true "t.dat" [("t.dat", "zz")] []).fs
        "t.dat" =
        some ("bb" ++ (((fsLookup [("t.dat", "zz")] ("t.dat" ++ ".tmp")).getD
          "").drop "bb".length))
    ∧ fsLookup (V2.saveStreamToFile "bb" true "t.dat" [("t.dat", "zz")] []).fs
        ("t.dat" ++ ".tmp") = none :=
  fullFetch_direct_write_and_stream_save_atomic c1adl c1aw c1g [] "bb"
    "t.dat" [("t.dat", "zz")] [] rfl (by decide) (by decide) (by decide)
